import Mathlib

/-!
# EyeRecToo: the field-camera frame processing pipeline

A shallow embedding of `src/EyeRecToo/src/FieldImageProcessor.cpp`
(`FieldImageProcessor::updateConfig`, `process`, `newROI`,
`sanitizeCameraParameters`) and of `Camera::getViewfinderSettings` from
`src/EyeRecToo/src/Camera.cpp`, together with theorems about them.

Modelling conventions

* `float` / `double` / `qreal` values are rationals (`ℚ`): rounding, overflow
  and NaN payloads of IEEE arithmetic are not modelled.  The one place where
  the source divides by a possibly zero integer and then compares the
  quotients (`currentAspectRatio == originalAspectRatio`) is modelled with
  `FloatQuot`, which keeps NaN and the infinities apart.
* `int` values are `Int`; the dimensions of a `cv::Mat` (`cols`, `rows`) and
  the `unsigned int` fields `FieldData::width/height` are `Nat`.
* A numeric `cv::Mat` is a list of rows; the empty matrix is `[]`.
* OpenCV / Qt routines and the repository's helpers whose bodies are not in
  the given sources are fields of `Env`; every theorem holds for all of them
  unless it names an assumption.
* Member state of the object is passed explicitly (`FieldImageProcessor`);
  `emit newData(data)` appends to the list of emitted records.
-/

namespace EyeRecToo

/-! ## Basic value types -/

/-- Milliseconds on the clock of `gTimer` (`Timestamp` in the source). -/
abbrev Timestamp := Int

/-- The `cv::Size` of the source: integer width and height. -/
structure Size where
  width : Int
  height : Int
  deriving DecidableEq

/-- The `cv::Point2f` of the source. -/
structure Point2f where
  x : ℚ
  y : ℚ
  deriving DecidableEq

/-- The `cv::Point3f` of the source. -/
structure Point3f where
  x : ℚ
  y : ℚ
  z : ℚ
  deriving DecidableEq

/-- The `QPointF` of Qt: a pair of `qreal` coordinates. -/
structure QPointF where
  x : ℚ
  y : ℚ
  deriving DecidableEq

/-- The test `QPointF::isNull()` of Qt: both coordinates are zero. -/
def QPointF.isNull (p : QPointF) : Bool :=
  p.x == 0 && p.y == 0

/-- A numeric `cv::Mat`, row by row; `[]` is the empty matrix. -/
abbrev Mat := List (List ℚ)

/-- The test `cv::Mat::empty()`. -/
def Mat.empty (m : Mat) : Bool := m.isEmpty

/-- Reading `m.at<double>(i,j)`; entries outside the matrix (undefined in
OpenCV) read as `0`. -/
def Mat.at (m : Mat) (i j : Nat) : ℚ := (m.getD i []).getD j 0

/-- Writing `m.at<double>(i,j) = v`; a write outside the matrix (undefined in
OpenCV) leaves it as it is. -/
def Mat.setAt (m : Mat) (i j : Nat) (v : ℚ) : Mat :=
  m.set i ((m.getD i []).set j v)

/-- An image `cv::Mat`: its dimensions, element type and pixel buffer. -/
structure Frame where
  cols : Nat
  rows : Nat
  type : Int
  pixels : List Nat
  deriving DecidableEq

/-- The value of a floating-point quotient of two integers, rounding aside:
`0/0` is NaN, a non-zero numerator over `0` is an infinity. -/
inductive FloatQuot where
  | nan : FloatQuot
  | posInf : FloatQuot
  | negInf : FloatQuot
  | fin (q : ℚ) : FloatQuot
  deriving DecidableEq

/-- The quotient `a / (float) b` of two `int`s. -/
def floatDiv (a b : Int) : FloatQuot :=
  if b = 0 then
    if a = 0 then FloatQuot.nan
    else if 0 < a then FloatQuot.posInf
    else FloatQuot.negInf
  else FloatQuot.fin ((a : ℚ) / (b : ℚ))

/-- The comparison `==` of two floating-point values: NaN equals nothing. -/
def FloatQuot.feq : FloatQuot → FloatQuot → Bool
  | FloatQuot.nan, _ => false
  | _, FloatQuot.nan => false
  | FloatQuot.posInf, FloatQuot.posInf => true
  | FloatQuot.negInf, FloatQuot.negInf => true
  | FloatQuot.fin p, FloatQuot.fin q => p == q
  | _, _ => false

/-! ## Markers and the output record -/

/-- The `Marker` record of the repository (its class is declared in a header
that is not among the given sources; the fields are the ones `process`
assigns). -/
structure Marker where
  corners : List Point2f
  center : Point3f
  id : Int
  tv : List ℚ
  rv : List ℚ
  deriving DecidableEq

/-- Modelled from the spec: the default constructor `Marker()`, whose class is
not among the given sources.  The spec calls it the "none" sentinel; `process`
recognises it by `id == -1`. -/
def Marker.none : Marker :=
  { corners := [], center := ⟨0, 0, 0⟩, id := -1, tv := [], rv := [] }

/-- Modelled from the spec: the constructor `Marker(corners, id)`, whose class
is not among the given sources: it stores the corners and the id. -/
def Marker.mk2 (corners : List Point2f) (id : Int) : Marker :=
  { corners := corners, center := ⟨0, 0, 0⟩, id := id, tv := [], rv := [] }

/-- The `FieldData` record that `process` fills and emits (the fields that
`process` assigns; `width` and `height` are `unsigned int`). -/
structure FieldData where
  timestamp : Timestamp
  input : Frame
  undistorted : Bool
  width : Nat
  height : Nat
  markers : List Marker
  collectionMarker : Marker
  validGazeEstimate : Bool
  processingTimestamp : Timestamp
  deriving DecidableEq

/-! ## Configuration, calibration file, external routines -/

/-- The fields of `cfg` that the pipeline reads. -/
structure FieldImageProcessorConfig where
  inputSize : Size
  flip : Int
  undistort : Bool
  processingDownscalingFactor : ℚ
  markerDetectionMethod : String
  collectionMarkerId : Int
  collectionMarkerSizeMeters : ℚ
  deriving DecidableEq

/-- What the three reads from `<id>Calibration.xml` deliver; a missing file or
node delivers an empty matrix and the size `0 x 0`. -/
structure CalibrationFile where
  cameraMatrix : Mat
  distCoeffs : Mat
  imageSize : Size
  deriving DecidableEq

/-- A 3-vector of a pose (one row of `rvecs` / `tvecs`). -/
structure Vec3d where
  v0 : ℚ
  v1 : ℚ
  v2 : ℚ
  deriving DecidableEq

/-- Routines and constants whose bodies are outside the given sources. -/
structure Env where
  /-- The constant `CV_FLIP_NONE` of the repository. -/
  CV_FLIP_NONE : Int
  /-- Call `cv::resize(src, dst, dsize, fx, fy)`. -/
  resize : Frame → Size → ℚ → ℚ → Frame
  /-- Call `cv::flip(src, dst, flipCode)`. -/
  flip : Frame → Int → Frame
  /-- Call `cv::remap(src, dst, map1, map2, CV_INTER_AREA)`. -/
  remap : Frame → Mat → Mat → Frame
  /-- Call `cv::aruco::detectMarkers`: the detections as `(id, corners)`, the
  parallel vectors `ids` and `corners` of the source zipped. -/
  detectMarkers : Frame → List (Int × List Point2f)
  /-- Call `cv::aruco::estimatePoseSingleMarkers`: `(rvecs, tvecs)`. -/
  estimatePoseSingleMarkers :
    List (List Point2f) → ℚ → Mat → Mat → List Vec3d × List Vec3d
  /-- The helper `estimateMarkerCenter` of the repository. -/
  estimateMarkerCenter : List Point2f → Point3f
  /-- The contents of the calibration file at the moment it is read. -/
  calibrationFile : CalibrationFile
  /-- Call `cv::getOptimalNewCameraMatrix`. -/
  getOptimalNewCameraMatrix : Mat → Mat → Size → ℚ → Size → Mat
  /-- Call `cv::initUndistortRectifyMap`: `(map1, map2)`. -/
  initUndistortRectifyMap : Mat → Mat → Mat → Mat → Size → Mat × Mat

/-! ## The processor object -/

/-- Member state of `FieldImageProcessor`.  `log` collects the `qInfo()`
lines, newest last. -/
structure FieldImageProcessor where
  cfg : FieldImageProcessorConfig
  sROI : QPointF
  eROI : QPointF
  forceSanitize : Bool
  cameraMatrix : Mat
  distCoeffs : Mat
  imageSize : Size
  map1 : Mat
  map2 : Mat
  rvecs : List Vec3d
  tvecs : List Vec3d
  data : FieldData
  log : List String
  deriving DecidableEq

/-- The method `FieldImageProcessor::updateConfig`: load the configuration and
force the next sanitize. -/
def updateConfig (loaded : FieldImageProcessorConfig)
    (self : FieldImageProcessor) : FieldImageProcessor :=
  { self with cfg := loaded, forceSanitize := true }

/-- The method `FieldImageProcessor::newROI`. -/
def newROI (sROI eROI : QPointF) (self : FieldImageProcessor) :
    FieldImageProcessor :=
  if sROI.isNull || eROI.isNull then
    { self with sROI := ⟨0, 0⟩, eROI := ⟨1, 1⟩ }
  else
    { self with sROI := sROI, eROI := eROI }

/-- The dummy camera matrix of `sanitizeCameraParameters`:
`size.width, 0, 0.5*size.width; 0, size.width, 0.5*size.height; 0, 0, 1`. -/
def dummyCameraMatrix (size : Size) : Mat :=
  [[(size.width : ℚ), 0, (1 / 2 : ℚ) * (size.width : ℚ)],
   [0, (size.width : ℚ), (1 / 2 : ℚ) * (size.height : ℚ)],
   [0, 0, 1]]

/-- The zero distortion coefficients `Mat_<double>(1,4) << 0, 0, 0, 0`. -/
def zeroDistCoeffs : Mat := [[0, 0, 0, 0]]

/-- The part of `sanitizeCameraParameters` after its guard (lines 173-213):
read the calibration file, rescale or replace the intrinsics, rebuild the
maps. -/
def recomputeCameraParameters (env : Env) (size : Size)
    (self : FieldImageProcessor) : FieldImageProcessor :=
  let cameraMatrix := env.calibrationFile.cameraMatrix
  let distCoeffs := env.calibrationFile.distCoeffs
  let imageSize := env.calibrationFile.imageSize
  let haveCameraParameters := !cameraMatrix.empty && !distCoeffs.empty
  let currentAspectRatio := floatDiv size.width size.height
  let originalAspectRatio := floatDiv imageSize.width imageSize.height
  let self :=
    if haveCameraParameters && currentAspectRatio.feq originalAspectRatio then
      let rx : ℚ := (imageSize.width : ℚ) / (size.width : ℚ)
      let ry : ℚ := (imageSize.height : ℚ) / (size.height : ℚ)
      let cameraMatrix := cameraMatrix.setAt 0 2 (cameraMatrix.at 0 2 / rx)
      let cameraMatrix := cameraMatrix.setAt 1 2 (cameraMatrix.at 1 2 / ry)
      let cameraMatrix := cameraMatrix.setAt 0 0 (cameraMatrix.at 0 0 / rx)
      let cameraMatrix := cameraMatrix.setAt 1 1 (cameraMatrix.at 1 1 / rx)
      { self with
          log := self.log ++ ["Found intrinsic parameters."]
          cameraMatrix := cameraMatrix
          distCoeffs := distCoeffs
          imageSize := size }
    else
      { self with
          log := self.log ++
            ["No valid intrinsic parameters available. Using dummy values"]
          cameraMatrix := dummyCameraMatrix size
          distCoeffs := zeroDistCoeffs
          imageSize := size }
  let maps := env.initUndistortRectifyMap self.cameraMatrix self.distCoeffs []
    (env.getOptimalNewCameraMatrix self.cameraMatrix self.distCoeffs
      self.imageSize 1 self.imageSize)
    self.imageSize
  { self with map1 := maps.1, map2 := maps.2 }

/-- The method `FieldImageProcessor::sanitizeCameraParameters`. -/
def sanitizeCameraParameters (env : Env) (size : Size)
    (self : FieldImageProcessor) : FieldImageProcessor :=
  if !self.forceSanitize then
    if size == self.imageSize && !self.map1.empty && !self.map2.empty then
      self
    else
      recomputeCameraParameters env size self
  else
    recomputeCameraParameters env size { self with forceSanitize := false }

/-! ## The performance governor -/

/-- Modelled from the spec: the state of `gPerformanceMonitor`, whose class is
not among the given sources; section 4.7 of the spec gives it a drop counter. -/
structure PerformanceMonitor where
  droppedFrameCount : Nat
  deriving DecidableEq

/-- Modelled from the spec: the method `PerformanceMonitor::shouldDrop(idx,
delay, maxDelay)`, which is not among the given sources.  Section 4.7: when the
backlog exceeds the threshold the frame is discarded and a drop counter is
incremented. -/
def PerformanceMonitor.shouldDrop (pm : PerformanceMonitor)
    (delay maxDelay : Timestamp) : Bool × PerformanceMonitor :=
  if delay > maxDelay then
    (true, { pm with droppedFrameCount := pm.droppedFrameCount + 1 })
  else
    (false, pm)

/-! ## The method `process` -/

/-- One detection: the marker id and its corners. -/
abbrev Detection := Int × List Point2f

/-- The product `factor * corner` of a `double` and a `cv::Point2f`. -/
def Point2f.scale (factor : ℚ) (p : Point2f) : Point2f :=
  ⟨factor * p.x, factor * p.y⟩

/-- Lines 50-71 of `process`: store the timestamp, resize, flip, sanitize the
camera parameters, undistort, record width and height.  The check
`Q_ASSERT_X` of line 57 (debug builds only: the frame must not alias the
previous input) is not modelled. -/
def preprocess (env : Env) (timestamp : Timestamp) (frame : Frame)
    (self : FieldImageProcessor) : FieldImageProcessor :=
  let cfg := self.cfg
  let data := { self.data with timestamp := timestamp }
  let data :=
    if cfg.inputSize.width > 0 && cfg.inputSize.height > 0 then
      { data with input := env.resize frame cfg.inputSize 0 0 }
    else
      { data with input := frame }
  let data :=
    if cfg.flip != env.CV_FLIP_NONE then
      { data with input := env.flip data.input cfg.flip }
    else data
  let self := sanitizeCameraParameters env
    ⟨(data.input.cols : Int), (data.input.rows : Int)⟩ { self with data := data }
  let data := { self.data with undistorted := cfg.undistort }
  let data :=
    if data.undistorted then
      { data with input := env.remap data.input self.map1 self.map2 }
    else data
  let data := { data with width := data.input.cols, height := data.input.rows }
  { self with data := data }

/-- The frame handed to the detector (lines 76-84 of `process`). -/
def downscaledFrame (env : Env) (self : FieldImageProcessor) : Frame :=
  if self.cfg.processingDownscalingFactor > 1 then
    env.resize self.data.input ⟨0, 0⟩
      (1 / self.cfg.processingDownscalingFactor)
      (1 / self.cfg.processingDownscalingFactor)
  else
    self.data.input

/-- Lines 74-95 of `process`: detect the markers on the possibly downscaled
frame and scale the corners back. -/
def detect (env : Env) (gCalibrating : Bool) (self : FieldImageProcessor) :
    List Detection :=
  let downscaled := downscaledFrame env self
  if self.cfg.markerDetectionMethod == "aruco" || gCalibrating then
    let detections := env.detectMarkers downscaled
    if self.cfg.processingDownscalingFactor > 1 then
      detections.map fun d =>
        (d.1, d.2.map (Point2f.scale self.cfg.processingDownscalingFactor))
    else
      detections
  else
    []

/-- The arguments of one call of `estimatePoseSingleMarkers`. -/
structure PoseCall where
  corners : List (List Point2f)
  markerLength : ℚ
  cameraMatrix : Mat
  distCoeffs : Mat
  deriving DecidableEq

/-- The matrix `emptyCameraMatrix` of `process` (lines 108-111):
`data.width, 0, data.width/2; 0, data.width, data.height/2; 0, 0, 1`, where
`data.width` and `data.height` are `unsigned int`, so that `/` is the integer
division. -/
def emptyCameraMatrix (data : FieldData) : Mat :=
  [[(data.width : ℚ), 0, ((data.width / 2 : Nat) : ℚ)],
   [0, (data.width : ℚ), ((data.height / 2 : Nat) : ℚ)],
   [0, 0, 1]]

/-- Lines 106-116 of `process`: the call of the pose solver, if any. -/
def poseCall (self : FieldImageProcessor) (detections : List Detection) :
    Option PoseCall :=
  if detections.length > 0 then
    if self.data.undistorted then
      some ⟨detections.map Prod.snd, self.cfg.collectionMarkerSizeMeters,
        emptyCameraMatrix self.data, zeroDistCoeffs⟩
    else
      some ⟨detections.map Prod.snd, self.cfg.collectionMarkerSizeMeters,
        self.cameraMatrix, self.distCoeffs⟩
  else
    none

/-- Lines 106-116 of `process`: run the pose solver and store `rvecs` and
`tvecs`. -/
def estimatePose (env : Env) (detections : List Detection)
    (self : FieldImageProcessor) : FieldImageProcessor :=
  match poseCall self detections with
  | some c =>
    let r := env.estimatePoseSingleMarkers c.corners c.markerLength
      c.cameraMatrix c.distCoeffs
    { self with rvecs := r.1, tvecs := r.2 }
  | none => self

/-- Row `i` of `rvecs` / `tvecs`; the solver delivers one row per marker, a
row outside (undefined in OpenCV) reads as zero. -/
def poseRow (rows : List Vec3d) (i : Nat) : Vec3d :=
  rows.getD i ⟨0, 0, 0⟩

/-- Lines 119-124 of `process`: the marker built for detection `i`. -/
def buildMarker (env : Env) (rvecs tvecs : List Vec3d) (i : Nat)
    (d : Detection) : Marker :=
  let marker := Marker.mk2 d.2 d.1
  let marker := { marker with center := env.estimateMarkerCenter marker.corners }
  let marker := { marker with center := { marker.center with z := (poseRow tvecs i).v2 } }
  let marker := { marker with
    tv := [(poseRow tvecs i).v0, (poseRow tvecs i).v1, (poseRow tvecs i).v2] }
  { marker with
    rv := [(poseRow rvecs i).v0, (poseRow rvecs i).v1, (poseRow rvecs i).v2] }

/-- Lines 129-134 of `process`: the choice of the collection marker after the
marker has been pushed (`data.markers.back()` is that marker). -/
def selectCollectionMarker (collectionMarkerId : Int) (current marker : Marker) :
    Marker :=
  if marker.id == collectionMarkerId then
    if current.id == -1 then marker
    else if current.center.z > marker.center.z then marker
    else current
  else current

/-- Lines 118-135 of `process`: the loop over the detections, from index `i`
on. -/
def fillMarkers (env : Env) (collectionMarkerId : Int) (rvecs tvecs : List Vec3d) :
    Nat → List Detection → FieldData → FieldData
  | _, [], data => data
  | i, d :: rest, data =>
    let marker := buildMarker env rvecs tvecs i d
    let data := { data with markers := data.markers ++ [marker] }
    let data := { data with
      collectionMarker :=
        selectCollectionMarker collectionMarkerId data.collectionMarker marker }
    fillMarkers env collectionMarkerId rvecs tvecs (i + 1) rest data

/-- What one call of `process` leaves behind: the object, the performance
monitor, the records emitted through `newData`, and the calls of the pose
solver it made. -/
structure ProcessResult where
  self : FieldImageProcessor
  monitor : PerformanceMonitor
  emitted : List FieldData
  poseCalls : List PoseCall
  deriving DecidableEq

/-- The method `FieldImageProcessor::process`.  `elapsedAtEntry` and
`elapsedAtExit` are the two readings of `gTimer.elapsed()`. -/
def process (env : Env) (gCalibrating : Bool)
    (elapsedAtEntry elapsedAtExit : Timestamp) (monitor : PerformanceMonitor)
    (timestamp : Timestamp) (frame : Frame) (self : FieldImageProcessor) :
    ProcessResult :=
  let verdict := monitor.shouldDrop (elapsedAtEntry - timestamp) 100
  if verdict.1 then
    { self := self, monitor := verdict.2, emitted := [], poseCalls := [] }
  else
    let self := preprocess env timestamp frame self
    let detections := detect env gCalibrating self
    let self := { self with
      data := { self.data with collectionMarker := Marker.none, markers := [] } }
    let calls := (poseCall self detections).toList
    let self := estimatePose env detections self
    let data := fillMarkers env self.cfg.collectionMarkerId self.rvecs self.tvecs
      0 detections self.data
    let data := { data with validGazeEstimate := false }
    let data := { data with processingTimestamp := elapsedAtExit - data.timestamp }
    { self := { self with data := data }, monitor := verdict.2,
      emitted := [data], poseCalls := calls }

/-! ## Auxiliary definitions for the proofs -/

/-- The markers that the loop of `process` pushes for the detections, from
index `i` on. -/
def builtMarkers (env : Env) (rvecs tvecs : List Vec3d) :
    Nat → List Detection → List Marker
  | _, [] => []
  | i, d :: rest =>
    buildMarker env rvecs tvecs i d :: builtMarkers env rvecs tvecs (i + 1) rest

/-- The object after lines 48-116 of `process`. -/
def afterPose (env : Env) (gCalibrating : Bool) (timestamp : Timestamp) (frame : Frame)
    (self : FieldImageProcessor) : FieldImageProcessor :=
  let p := preprocess env timestamp frame self
  estimatePose env (detect env gCalibrating p)
    { p with data := { p.data with collectionMarker := Marker.none, markers := [] } }

/-! ## Concrete instances used to exercise the theorems -/

/-- The record held by `data` before the first frame; `process` assigns every
field it reads before reading it. -/
def FieldData.initial : FieldData :=
  { timestamp := 0, input := ⟨0, 0, 0, []⟩, undistorted := false, width := 0,
    height := 0, markers := [], collectionMarker := Marker.none,
    validGazeEstimate := false, processingTimestamp := 0 }

/-- The constructor `FieldImageProcessor::FieldImageProcessor`: the ROI is
`(0,0)-(1,1)`, `forceSanitize` is `false`, then `updateConfig()` runs; the
members without an initialiser are default-constructed (empty matrices, size
`0 x 0`). -/
def FieldImageProcessor.construct (loaded : FieldImageProcessorConfig) :
    FieldImageProcessor :=
  updateConfig loaded
    { cfg := loaded, sROI := ⟨0, 0⟩, eROI := ⟨1, 1⟩, forceSanitize := false,
      cameraMatrix := [], distCoeffs := [], imageSize := ⟨0, 0⟩, map1 := [],
      map2 := [], rvecs := [], tvecs := [], data := FieldData.initial, log := [] }

/-- A configuration: native input size, no flip, undistortion on, detection
on a frame downscaled by 2, collection marker 7. -/
def demoConfig : FieldImageProcessorConfig :=
  { inputSize := ⟨0, 0⟩, flip := 2, undistort := true,
    processingDownscalingFactor := 2, markerDetectionMethod := "aruco",
    collectionMarkerId := 7, collectionMarkerSizeMeters := 1 / 20 }

/-- Three detections on the downscaled frame: marker 7 twice, marker 3 once. -/
def demoDetections : List Detection :=
  [(7, [⟨25, 10⟩, ⟨35, 10⟩, ⟨35, 20⟩, ⟨25, 20⟩]),
   (3, [⟨100, 40⟩, ⟨110, 40⟩, ⟨110, 50⟩, ⟨100, 50⟩]),
   (7, [⟨15, 60⟩, ⟨25, 60⟩, ⟨25, 70⟩, ⟨15, 70⟩])]

/-- External routines for the examples: no calibration file, image operations
that keep the frame, a detector that reports `dets`, and a pose solver whose
depth for a marker is the x coordinate of its first corner over 100. -/
def demoEnvWith (dets : List Detection) : Env :=
  { CV_FLIP_NONE := 2
    resize := fun f _ _ _ => f
    flip := fun f _ => f
    remap := fun f _ _ => f
    detectMarkers := fun _ => dets
    estimatePoseSingleMarkers := fun corners _ _ _ =>
      (corners.map fun _ => ⟨0, 0, 0⟩,
       corners.map fun c => ⟨0, 0, (c.headD ⟨0, 0⟩).x / 100⟩)
    estimateMarkerCenter := fun c => ⟨(c.headD ⟨0, 0⟩).x, (c.headD ⟨0, 0⟩).y, 0⟩
    calibrationFile := ⟨[], [], ⟨0, 0⟩⟩
    getOptimalNewCameraMatrix := fun k _ _ _ _ => k
    initUndistortRectifyMap := fun _ _ _ _ _ => ([[0]], [[0]]) }

/-- The example routines with the three detections `demoDetections`. -/
def demoEnv : Env := demoEnvWith demoDetections

/-- The example routines with a calibration stored for `1280 x 720`. -/
def demoEnvCalibrated : Env :=
  { demoEnv with
    calibrationFile :=
      ⟨[[1000, 0, 640], [0, 1000, 360], [0, 0, 1]], [[1 / 10, 0, 0, 0]], ⟨1280, 720⟩⟩ }

/-- A `640 x 480` frame. -/
def demoFrame : Frame := ⟨640, 480, 16, []⟩

/-- A `641 x 481` frame. -/
def oddFrame : Frame := ⟨641, 481, 16, []⟩

/-- The processor right after construction with `demoConfig`. -/
def demoProcessor : FieldImageProcessor := FieldImageProcessor.construct demoConfig

/-! ## Sequences of ROI updates -/

/-- A valid normalized rectangle: `0 ≤ s.x ≤ e.x ≤ 1` and
`0 ≤ s.y ≤ e.y ≤ 1`. -/
def validROI (s e : QPointF) : Prop :=
  0 ≤ s.x ∧ s.x ≤ e.x ∧ e.x ≤ 1 ∧ 0 ≤ s.y ∧ s.y ≤ e.y ∧ e.y ≤ 1

instance (s e : QPointF) : Decidable (validROI s e) := by
  unfold validROI
  infer_instance

/-- A sequence of `newROI` calls, oldest first, each with its start and end
point. -/
def newROIs (calls : List (QPointF × QPointF)) (self : FieldImageProcessor) :
    FieldImageProcessor :=
  calls.foldl (fun p c => newROI c.1 c.2 p) self

/-! ## The method `Camera::getViewfinderSettings` -/

/-- The values of `QVideoFrame::PixelFormat` that the source names; every
other format of Qt is `other`. -/
inductive PixelFormat where
  | Format_Invalid : PixelFormat
  | Format_RGB32 : PixelFormat
  | Format_RGB24 : PixelFormat
  | Format_YUYV : PixelFormat
  | Format_UYVY : PixelFormat
  | Format_Jpeg : PixelFormat
  | other (code : Nat) : PixelFormat
  deriving DecidableEq

/-- The `QSize` of Qt. -/
structure QSize where
  width : Int
  height : Int
  deriving DecidableEq

/-- The `QCameraViewfinderSettings` of Qt: the fields that the source reads or
writes, and the flag behind `isNull()`, which is set at construction and
cleared by every setter. -/
structure QCameraViewfinderSettings where
  isNull : Bool
  resolution : QSize
  minimumFrameRate : ℚ
  maximumFrameRate : ℚ
  pixelFormat : PixelFormat
  deriving DecidableEq

/-- The default-constructed `QCameraViewfinderSettings()` of Qt: null, invalid
size and format, frame rates `0`. -/
def QCameraViewfinderSettings.null : QCameraViewfinderSettings :=
  { isNull := true, resolution := ⟨-1, -1⟩, minimumFrameRate := 0,
    maximumFrameRate := 0, pixelFormat := PixelFormat.Format_Invalid }

/-- The setter `setMaximumFrameRate` of Qt. -/
def QCameraViewfinderSettings.setMaximumFrameRate (s : QCameraViewfinderSettings)
    (rate : ℚ) : QCameraViewfinderSettings :=
  { s with isNull := false, maximumFrameRate := rate }

/-- The setter `setMinimumFrameRate` of Qt. -/
def QCameraViewfinderSettings.setMinimumFrameRate (s : QCameraViewfinderSettings)
    (rate : ℚ) : QCameraViewfinderSettings :=
  { s with isNull := false, minimumFrameRate := rate }

/-- The setter `setResolution(width, height)` of Qt. -/
def QCameraViewfinderSettings.setResolution (s : QCameraViewfinderSettings)
    (width height : Int) : QCameraViewfinderSettings :=
  { s with isNull := false, resolution := ⟨width, height⟩ }

/-- The setter `setPixelFormat` of Qt. -/
def QCameraViewfinderSettings.setPixelFormat (s : QCameraViewfinderSettings)
    (format : PixelFormat) : QCameraViewfinderSettings :=
  { s with isNull := false, pixelFormat := format }

/-- The test of lines 96-100: the pixel format is one of RGB32, RGB24, YUYV,
UYVY, Jpeg. -/
def acceptedFormat (f : PixelFormat) : Bool :=
  f == PixelFormat.Format_RGB32 || f == PixelFormat.Format_RGB24 ||
    f == PixelFormat.Format_YUYV || f == PixelFormat.Format_UYVY ||
    f == PixelFormat.Format_Jpeg

/-- The product `resolution().width() * resolution().height()` of line 106
(an `int` product; overflow is not modelled). -/
def pixelArea (s : QCameraViewfinderSettings) : Int :=
  s.resolution.width * s.resolution.height

/-- The body of the loop of lines 95-109, for one supported setting. -/
def recommendStep (recommended setting : QCameraViewfinderSettings) :
    QCameraViewfinderSettings :=
  if acceptedFormat setting.pixelFormat then
    if recommended.isNull then setting
    else if setting.maximumFrameRate ≥ recommended.maximumFrameRate then
      if pixelArea setting < pixelArea recommended then setting
      else recommended
    else recommended
  else recommended

/-- Lines 113-125: the first supported setting with the recommended format
and resolution and a maximum frame rate within 1 of the recommended one; the
camera's current settings if there is none. -/
def exactSetting (current recommended : QCameraViewfinderSettings) :
    List QCameraViewfinderSettings → QCameraViewfinderSettings
  | [] => current
  | setting :: rest =>
    if recommended.pixelFormat != setting.pixelFormat then
      exactSetting current recommended rest
    else if recommended.resolution != setting.resolution then
      exactSetting current recommended rest
    else if |recommended.maximumFrameRate - setting.maximumFrameRate| > 1 then
      exactSetting current recommended rest
    else setting

/-- The recommendation of lines 67-91 for a known camera: the frame rate
(minimum and maximum), the resolution, the Jpeg format. -/
def knownRecommendation (rate : ℚ) (width height : Int) : QCameraViewfinderSettings :=
  (((QCameraViewfinderSettings.null.setMaximumFrameRate rate).setMinimumFrameRate
    rate).setResolution width height).setPixelFormat PixelFormat.Format_Jpeg

/-- The method `Camera::getViewfinderSettings`.  `description` is
`cameraInfo.description()`, `current` is `camera->viewfinderSettings()` and
`supported` is `camera->supportedViewfinderSettings()`. -/
def getViewfinderSettings (description : String)
    (current : QCameraViewfinderSettings)
    (supported : List QCameraViewfinderSettings) : QCameraViewfinderSettings :=
  if description == "Pupil Cam1 ID0" then
    exactSetting current (knownRecommendation 60 640 480) supported
  else if description == "Pupil Cam1 ID1" then
    exactSetting current (knownRecommendation 60 640 480) supported
  else if description == "Pupil Cam1 ID2" then
    exactSetting current (knownRecommendation 30 1280 720) supported
  else if description == "Pupil Cam2 ID0" then
    exactSetting current (knownRecommendation 60 400 400) supported
  else if description == "Pupil Cam2 ID1" then
    exactSetting current (knownRecommendation 60 400 400) supported
  else
    supported.foldl recommendStep current

/-- A supported setting: RGB32, `640 x 480`, 30 frames per second. -/
def vga30 : QCameraViewfinderSettings :=
  { isNull := false, resolution := ⟨640, 480⟩, minimumFrameRate := 30,
    maximumFrameRate := 30, pixelFormat := PixelFormat.Format_RGB32 }

/-- A supported setting: RGB32, `640 x 480`, 60 frames per second. -/
def vga60 : QCameraViewfinderSettings :=
  { isNull := false, resolution := ⟨640, 480⟩, minimumFrameRate := 60,
    maximumFrameRate := 60, pixelFormat := PixelFormat.Format_RGB32 }

/-! ## Lemmas -/

theorem floatDiv_feq_pos (a b c d : Int) (hb : 0 < b) (hd : 0 < d) :
    (floatDiv a b).feq (floatDiv c d) = true ↔ a * d = c * b := by
  have hb' : (b : ℚ) ≠ 0 := by exact_mod_cast hb.ne'
  have hd' : (d : ℚ) ≠ 0 := by exact_mod_cast hd.ne'
  simp only [floatDiv, hb.ne', hd.ne', if_false, FloatQuot.feq, beq_iff_eq]
  rw [div_eq_div_iff hb' hd']
  exact_mod_cast Iff.rfl

theorem recompute_forceSanitize (env : Env) (size : Size) (self : FieldImageProcessor) :
    (recomputeCameraParameters env size self).forceSanitize = self.forceSanitize := by
  unfold recomputeCameraParameters
  simp only
  split <;> rfl

theorem recompute_imageSize (env : Env) (size : Size) (self : FieldImageProcessor) :
    (recomputeCameraParameters env size self).imageSize = size := by
  unfold recomputeCameraParameters
  simp only
  split <;> rfl

theorem recompute_log_length (env : Env) (size : Size) (self : FieldImageProcessor) :
    (recomputeCameraParameters env size self).log.length = self.log.length + 1 := by
  unfold recomputeCameraParameters
  simp only
  split <;> simp

theorem sanitize_of_stale (env : Env) (size : Size) (self : FieldImageProcessor)
    (h : size ≠ self.imageSize ∨ self.map1.empty = true ∨ self.map2.empty = true ∨
      self.forceSanitize = true) :
    sanitizeCameraParameters env size self =
      recomputeCameraParameters env size { self with forceSanitize := false } := by
  unfold sanitizeCameraParameters
  cases hf : self.forceSanitize
  · have hself : ({ self with forceSanitize := false } : FieldImageProcessor) = self := by
      cases self; simp_all
    rw [hself]
    simp only [hf] at h
    have : (size == self.imageSize && !self.map1.empty && !self.map2.empty) = false := by
      rcases h with h | h | h | h
      · simp [h]
      · simp [h]
      · simp [h]
      · simp at h
    simp [this]
  · simp

theorem sanitize_of_not_stale (env : Env) (size : Size) (self : FieldImageProcessor)
    (h : ¬ (size ≠ self.imageSize ∨ self.map1.empty = true ∨ self.map2.empty = true ∨
      self.forceSanitize = true)) :
    sanitizeCameraParameters env size self = self := by
  unfold sanitizeCameraParameters
  push_neg at h
  obtain ⟨h1, h2, h3, h4⟩ := h
  simp at h2 h3 h4
  simp [h1, h2, h3, h4]

theorem fillMarkers_eq (env : Env) (cid : Int) (rvecs tvecs : List Vec3d)
    (dets : List Detection) :
    ∀ (i : Nat) (data : FieldData),
      fillMarkers env cid rvecs tvecs i dets data =
        { data with
          markers := data.markers ++ builtMarkers env rvecs tvecs i dets
          collectionMarker :=
            (builtMarkers env rvecs tvecs i dets).foldl
              (selectCollectionMarker cid) data.collectionMarker } := by
  induction dets with
  | nil => intro i data; simp [fillMarkers, builtMarkers]
  | cons d rest ih =>
    intro i data
    simp [fillMarkers, builtMarkers, ih]

theorem builtMarkers_ids (env : Env) (rvecs tvecs : List Vec3d) (dets : List Detection) :
    ∀ i : Nat, (builtMarkers env rvecs tvecs i dets).map (fun m => m.id) =
      dets.map (fun d => d.1) := by
  induction dets with
  | nil => intro i; simp [builtMarkers]
  | cons d rest ih => intro i; simp [builtMarkers, ih, buildMarker, Marker.mk2]

theorem builtMarkers_corners (env : Env) (rvecs tvecs : List Vec3d) (dets : List Detection) :
    ∀ i : Nat, (builtMarkers env rvecs tvecs i dets).map (fun m => m.corners) =
      dets.map (fun d => d.2) := by
  induction dets with
  | nil => intro i; simp [builtMarkers]
  | cons d rest ih => intro i; simp [builtMarkers, ih, buildMarker, Marker.mk2]

theorem recompute_cfg (env : Env) (size : Size) (self : FieldImageProcessor) :
    (recomputeCameraParameters env size self).cfg = self.cfg := by
  unfold recomputeCameraParameters
  simp only
  split <;> rfl

theorem recompute_data (env : Env) (size : Size) (self : FieldImageProcessor) :
    (recomputeCameraParameters env size self).data = self.data := by
  unfold recomputeCameraParameters
  simp only
  split <;> rfl

theorem sanitize_cfg (env : Env) (size : Size) (self : FieldImageProcessor) :
    (sanitizeCameraParameters env size self).cfg = self.cfg := by
  unfold sanitizeCameraParameters
  split
  · split
    · rfl
    · exact recompute_cfg _ _ _
  · exact recompute_cfg _ _ _

theorem sanitize_data (env : Env) (size : Size) (self : FieldImageProcessor) :
    (sanitizeCameraParameters env size self).data = self.data := by
  unfold sanitizeCameraParameters
  split
  · split
    · rfl
    · exact recompute_data _ _ _
  · exact recompute_data _ _ _

theorem preprocess_cfg (env : Env) (ts : Timestamp) (frame : Frame)
    (self : FieldImageProcessor) : (preprocess env ts frame self).cfg = self.cfg := by
  simp [preprocess, sanitize_cfg]

theorem preprocess_timestamp (env : Env) (ts : Timestamp) (frame : Frame)
    (self : FieldImageProcessor) : (preprocess env ts frame self).data.timestamp = ts := by
  simp only [preprocess, sanitize_data]
  split <;> split <;> split <;> rfl

theorem preprocess_undistorted (env : Env) (ts : Timestamp) (frame : Frame)
    (self : FieldImageProcessor) :
    (preprocess env ts frame self).data.undistorted = self.cfg.undistort := by
  simp only [preprocess, sanitize_data]
  split <;> split <;> split <;> rfl

theorem estimatePose_cfg (env : Env) (dets : List Detection) (self : FieldImageProcessor) :
    (estimatePose env dets self).cfg = self.cfg := by
  unfold estimatePose
  split <;> rfl

theorem estimatePose_data (env : Env) (dets : List Detection) (self : FieldImageProcessor) :
    (estimatePose env dets self).data = self.data := by
  unfold estimatePose
  split <;> rfl

theorem select_of_ne (cid : Int) (cur m : Marker) (h : m.id ≠ cid) :
    selectCollectionMarker cid cur m = cur := by
  simp [selectCollectionMarker, h]

theorem select_of_sentinel (cid : Int) (cur m : Marker) (h : m.id = cid)
    (hc : cur.id = -1) : selectCollectionMarker cid cur m = m := by
  simp [selectCollectionMarker, h, hc]

theorem select_of_closer (cid : Int) (cur m : Marker) (h : m.id = cid)
    (hc : cur.id ≠ -1) (hz : m.center.z < cur.center.z) :
    selectCollectionMarker cid cur m = m := by
  simp [selectCollectionMarker, h, hc, hz]

theorem select_of_not_closer (cid : Int) (cur m : Marker) (h : m.id = cid)
    (hc : cur.id ≠ -1) (hz : cur.center.z ≤ m.center.z) :
    selectCollectionMarker cid cur m = cur := by
  simp [selectCollectionMarker, h, hc, not_lt.mpr hz]

theorem fuse_from_selected (cid : Int) (hcid : cid ≠ -1) (ms : List Marker) :
    ∀ cur : Marker, cur.id = cid →
      (ms.foldl (selectCollectionMarker cid) cur = cur ∧
        ∀ (j : Nat) (m : Marker), ms[j]? = some m → m.id = cid →
          cur.center.z ≤ m.center.z) ∨
      (∃ i : Nat, ms[i]? = some (ms.foldl (selectCollectionMarker cid) cur) ∧
        (ms.foldl (selectCollectionMarker cid) cur).id = cid ∧
        (ms.foldl (selectCollectionMarker cid) cur).center.z < cur.center.z ∧
        (∀ (j : Nat) (m : Marker), ms[j]? = some m → m.id = cid →
          (ms.foldl (selectCollectionMarker cid) cur).center.z ≤ m.center.z) ∧
        (∀ (j : Nat) (m : Marker), j < i → ms[j]? = some m → m.id = cid →
          (ms.foldl (selectCollectionMarker cid) cur).center.z < m.center.z)) := by
  induction ms with
  | nil =>
    intro cur _
    left
    simp
  | cons a rest ih =>
    intro cur hcur
    have hcur1 : cur.id ≠ -1 := by rw [hcur]; exact hcid
    simp only [List.foldl_cons]
    by_cases ha : a.id = cid
    · by_cases hz : a.center.z < cur.center.z
      · rw [select_of_closer cid cur a ha hcur1 hz]
        rcases ih a ha with ⟨hr, hall⟩ | ⟨i, hi, hid, hlt, hall, hfirst⟩
        · right
          refine ⟨0, by simp [hr], by rw [hr]; exact ha, by rw [hr]; exact hz, ?_, ?_⟩
          · intro j m hj hm
            rw [hr]
            cases j with
            | zero => simp at hj; rw [← hj]
            | succ j => exact hall j m (by simpa using hj) hm
          · intro j m hj
            exact absurd hj (Nat.not_lt_zero j)
        · right
          refine ⟨i + 1, by simpa using hi, hid, lt_trans hlt hz, ?_, ?_⟩
          · intro j m hj hm
            cases j with
            | zero => simp at hj; rw [← hj]; exact le_of_lt hlt
            | succ j => exact hall j m (by simpa using hj) hm
          · intro j m hji hj hm
            cases j with
            | zero => simp at hj; rw [← hj]; exact hlt
            | succ j => exact hfirst j m (by omega) (by simpa using hj) hm
      · have hz' : cur.center.z ≤ a.center.z := not_lt.mp hz
        rw [select_of_not_closer cid cur a ha hcur1 hz']
        rcases ih cur hcur with ⟨hr, hall⟩ | ⟨i, hi, hid, hlt, hall, hfirst⟩
        · left
          refine ⟨hr, ?_⟩
          intro j m hj hm
          cases j with
          | zero => simp at hj; rw [← hj]; exact hz'
          | succ j => exact hall j m (by simpa using hj) hm
        · right
          refine ⟨i + 1, by simpa using hi, hid, hlt, ?_, ?_⟩
          · intro j m hj hm
            cases j with
            | zero => simp at hj; rw [← hj]; exact le_of_lt (lt_of_lt_of_le hlt hz')
            | succ j => exact hall j m (by simpa using hj) hm
          · intro j m hji hj hm
            cases j with
            | zero => simp at hj; rw [← hj]; exact lt_of_lt_of_le hlt hz'
            | succ j => exact hfirst j m (by omega) (by simpa using hj) hm
    · rw [select_of_ne cid cur a ha]
      rcases ih cur hcur with ⟨hr, hall⟩ | ⟨i, hi, hid, hlt, hall, hfirst⟩
      · left
        refine ⟨hr, ?_⟩
        intro j m hj hm
        cases j with
        | zero => simp at hj; rw [← hj] at hm; exact absurd hm ha
        | succ j => exact hall j m (by simpa using hj) hm
      · right
        refine ⟨i + 1, by simpa using hi, hid, hlt, ?_, ?_⟩
        · intro j m hj hm
          cases j with
          | zero => simp at hj; rw [← hj] at hm; exact absurd hm ha
          | succ j => exact hall j m (by simpa using hj) hm
        · intro j m hji hj hm
          cases j with
          | zero => simp at hj; rw [← hj] at hm; exact absurd hm ha
          | succ j => exact hfirst j m (by omega) (by simpa using hj) hm

theorem fuse_from_sentinel (cid : Int) (hcid : cid ≠ -1) (ms : List Marker) :
    ∀ cur : Marker, cur.id = -1 → (∃ m ∈ ms, m.id = cid) →
      ∃ i : Nat, ms[i]? = some (ms.foldl (selectCollectionMarker cid) cur) ∧
        (ms.foldl (selectCollectionMarker cid) cur).id = cid ∧
        (∀ (j : Nat) (m : Marker), ms[j]? = some m → m.id = cid →
          (ms.foldl (selectCollectionMarker cid) cur).center.z ≤ m.center.z) ∧
        (∀ (j : Nat) (m : Marker), j < i → ms[j]? = some m → m.id = cid →
          (ms.foldl (selectCollectionMarker cid) cur).center.z < m.center.z) := by
  induction ms with
  | nil =>
    intro cur _ hex
    obtain ⟨m, hm, _⟩ := hex
    simp at hm
  | cons a rest ih =>
    intro cur hcur hex
    simp only [List.foldl_cons]
    by_cases ha : a.id = cid
    · rw [select_of_sentinel cid cur a ha hcur]
      rcases fuse_from_selected cid hcid rest a ha with
        ⟨hr, hall⟩ | ⟨i, hi, hid, hlt, hall, hfirst⟩
      · refine ⟨0, by simp [hr], by rw [hr]; exact ha, ?_, ?_⟩
        · intro j m hj hm
          rw [hr]
          cases j with
          | zero => simp at hj; rw [← hj]
          | succ j => exact hall j m (by simpa using hj) hm
        · intro j m hj
          exact absurd hj (Nat.not_lt_zero j)
      · refine ⟨i + 1, by simpa using hi, hid, ?_, ?_⟩
        · intro j m hj hm
          cases j with
          | zero => simp at hj; rw [← hj]; exact le_of_lt hlt
          | succ j => exact hall j m (by simpa using hj) hm
        · intro j m hji hj hm
          cases j with
          | zero => simp at hj; rw [← hj]; exact hlt
          | succ j => exact hfirst j m (by omega) (by simpa using hj) hm
    · rw [select_of_ne cid cur a ha]
      have hex' : ∃ m ∈ rest, m.id = cid := by
        obtain ⟨m, hm, hmid⟩ := hex
        rcases List.mem_cons.mp hm with h | h
        · rw [h] at hmid; exact absurd hmid ha
        · exact ⟨m, h, hmid⟩
      obtain ⟨i, hi, hid, hall, hfirst⟩ := ih cur hcur hex'
      refine ⟨i + 1, by simpa using hi, hid, ?_, ?_⟩
      · intro j m hj hm
        cases j with
        | zero => simp at hj; rw [← hj] at hm; exact absurd hm ha
        | succ j => exact hall j m (by simpa using hj) hm
      · intro j m hji hj hm
        cases j with
        | zero => simp at hj; rw [← hj] at hm; exact absurd hm ha
        | succ j => exact hfirst j m (by omega) (by simpa using hj) hm

theorem process_dropped (env : Env) (gCalibrating : Bool) (t0 t1 : Timestamp)
    (monitor : PerformanceMonitor) (ts : Timestamp) (frame : Frame)
    (self : FieldImageProcessor) (h : t0 - ts > 100) :
    process env gCalibrating t0 t1 monitor ts frame self =
      { self := self
        monitor := { monitor with droppedFrameCount := monitor.droppedFrameCount + 1 }
        emitted := []
        poseCalls := [] } := by
  simp [process, PerformanceMonitor.shouldDrop, h]

theorem process_admitted (env : Env) (gCalibrating : Bool) (t0 t1 : Timestamp)
    (monitor : PerformanceMonitor) (ts : Timestamp) (frame : Frame)
    (self : FieldImageProcessor) (h : ¬ (t0 - ts > 100)) :
    ∃ d : FieldData,
      (process env gCalibrating t0 t1 monitor ts frame self).emitted = [d] ∧
      (process env gCalibrating t0 t1 monitor ts frame self).self.data = d ∧
      d.timestamp = ts ∧
      d.markers = builtMarkers env
        (afterPose env gCalibrating ts frame self).rvecs
        (afterPose env gCalibrating ts frame self).tvecs 0
        (detect env gCalibrating (preprocess env ts frame self)) ∧
      d.collectionMarker =
        (builtMarkers env
          (afterPose env gCalibrating ts frame self).rvecs
          (afterPose env gCalibrating ts frame self).tvecs 0
          (detect env gCalibrating (preprocess env ts frame self))).foldl
          (selectCollectionMarker self.cfg.collectionMarkerId) Marker.none := by
  refine ⟨(process env gCalibrating t0 t1 monitor ts frame self).self.data, ?_, rfl, ?_, ?_, ?_⟩
  · simp [process, PerformanceMonitor.shouldDrop, h]
  · simp [process, PerformanceMonitor.shouldDrop, h, fillMarkers_eq, estimatePose_data,
      preprocess_timestamp]
  · simp [process, PerformanceMonitor.shouldDrop, h, fillMarkers_eq, estimatePose_data,
      afterPose]
  · simp [process, PerformanceMonitor.shouldDrop, h, fillMarkers_eq, estimatePose_data,
      estimatePose_cfg, preprocess_cfg, afterPose]


theorem detect_of_enabled (env : Env) (gCalibrating : Bool) (self : FieldImageProcessor)
    (h : self.cfg.markerDetectionMethod = "aruco" ∨ gCalibrating = true) :
    detect env gCalibrating self =
      if self.cfg.processingDownscalingFactor > 1 then
        (env.detectMarkers (downscaledFrame env self)).map fun d =>
          (d.1, d.2.map (Point2f.scale self.cfg.processingDownscalingFactor))
      else env.detectMarkers (downscaledFrame env self) := by
  unfold detect
  rcases h with h | h <;> simp [h]

theorem detect_ids (env : Env) (gCalibrating : Bool) (self : FieldImageProcessor)
    (h : self.cfg.markerDetectionMethod = "aruco" ∨ gCalibrating = true) :
    (detect env gCalibrating self).map (fun d => d.1) =
      (env.detectMarkers (downscaledFrame env self)).map (fun d => d.1) := by
  rw [detect_of_enabled env gCalibrating self h]
  split
  · simp [List.map_map, Function.comp_def]
  · rfl

theorem detect_of_disabled (env : Env) (self : FieldImageProcessor)
    (h : self.cfg.markerDetectionMethod ≠ "aruco") :
    detect env false self = [] := by
  simp [detect, h]

theorem recompute_maps (env : Env) (size : Size) (self : FieldImageProcessor)
    (hmaps : ∀ (k d r p : Mat) (s : Size),
      (env.initUndistortRectifyMap k d r p s).1.empty = false ∧
      (env.initUndistortRectifyMap k d r p s).2.empty = false) :
    (recomputeCameraParameters env size self).map1.empty = false ∧
    (recomputeCameraParameters env size self).map2.empty = false := by
  unfold recomputeCameraParameters
  simp only
  exact hmaps _ _ _ _ _

theorem fuse_no_match (cid : Int) (ms : List Marker) :
    ∀ cur : Marker, (∀ m ∈ ms, m.id ≠ cid) →
      ms.foldl (selectCollectionMarker cid) cur = cur := by
  induction ms with
  | nil => intro cur _; rfl
  | cons a rest ih =>
    intro cur h
    simp only [List.foldl_cons]
    rw [select_of_ne cid cur a (h a (List.mem_cons_self a rest))]
    exact ih cur (fun m hm => h m (List.mem_cons_of_mem a hm))

/-! ## The claims -/

/-- C1: marker fusion in `process`.  When the frame is admitted, detection is
enabled, the detector's ids are non-negative and some detection carries the
configured collection-marker id, the emitted `collectionMarker` is one of the
emitted markers, carries the collection id, and is the first marker in
detection order whose depth `center.z` is minimal among the markers with that
id: no such marker is closer, and every earlier one is strictly farther. -/
theorem process_collectionMarker_closest (env : Env) (gCalibrating : Bool)
    (t0 t1 : Timestamp) (monitor : PerformanceMonitor) (ts : Timestamp) (frame : Frame)
    (self : FieldImageProcessor)
    (hadm : ¬ (t0 - ts > 100))
    (hdet : self.cfg.markerDetectionMethod = "aruco" ∨ gCalibrating = true)
    (hids : ∀ det ∈ env.detectMarkers (downscaledFrame env (preprocess env ts frame self)),
      0 ≤ det.1)
    (hex : ∃ det ∈ env.detectMarkers (downscaledFrame env (preprocess env ts frame self)),
      det.1 = self.cfg.collectionMarkerId) :
    ∃ d : FieldData,
      (process env gCalibrating t0 t1 monitor ts frame self).emitted = [d] ∧
      d.collectionMarker ∈ d.markers ∧
      d.collectionMarker.id = self.cfg.collectionMarkerId ∧
      ∃ i : Nat, d.markers[i]? = some d.collectionMarker ∧
        (∀ (j : Nat) (m : Marker), d.markers[j]? = some m →
          m.id = self.cfg.collectionMarkerId →
          d.collectionMarker.center.z ≤ m.center.z) ∧
        (∀ (j : Nat) (m : Marker), j < i → d.markers[j]? = some m →
          m.id = self.cfg.collectionMarkerId →
          d.collectionMarker.center.z < m.center.z) := by
  obtain ⟨d, hd, -, -, hmk, hcm⟩ :=
    process_admitted env gCalibrating t0 t1 monitor ts frame self hadm
  have hidl : d.markers.map (fun m => m.id) =
      (env.detectMarkers (downscaledFrame env (preprocess env ts frame self))).map
        (fun x => x.1) := by
    rw [hmk, builtMarkers_ids]
    exact detect_ids env gCalibrating _ (by rw [preprocess_cfg]; exact hdet)
  obtain ⟨det, hdetmem, hdetid⟩ := hex
  have hcid : self.cfg.collectionMarkerId ≠ -1 := by
    have := hids det hdetmem
    omega
  have hexm : ∃ m ∈ d.markers, m.id = self.cfg.collectionMarkerId := by
    have hmem : det.1 ∈ d.markers.map (fun m => m.id) := by
      rw [hidl]
      exact List.mem_map.mpr ⟨det, hdetmem, rfl⟩
    obtain ⟨m, hm, hmid⟩ := List.mem_map.mp hmem
    exact ⟨m, hm, by rw [hmid, hdetid]⟩
  have hfuse := fuse_from_sentinel self.cfg.collectionMarkerId hcid d.markers
    Marker.none rfl hexm
  have hcm' : d.collectionMarker =
      d.markers.foldl (selectCollectionMarker self.cfg.collectionMarkerId) Marker.none := by
    rw [hcm, hmk]
  rw [← hcm'] at hfuse
  obtain ⟨i, hi, hid, hall, hfirst⟩ := hfuse
  exact ⟨d, hd, List.getElem?_mem hi, hid, i, hi, hall, hfirst⟩

/-- An instance: with the detections of `demoEnv` (marker 7 at depths 1/2 and
3/10, marker 3 in between) the fused marker exists and is the closest. -/
theorem process_collectionMarker_closest_witness :
    ∃ d : FieldData,
      (process demoEnv false 1050 1060 ⟨0⟩ 1000 demoFrame demoProcessor).emitted = [d] ∧
      d.collectionMarker ∈ d.markers ∧
      d.collectionMarker.id = demoProcessor.cfg.collectionMarkerId ∧
      ∃ i : Nat, d.markers[i]? = some d.collectionMarker ∧
        (∀ (j : Nat) (m : Marker), d.markers[j]? = some m →
          m.id = demoProcessor.cfg.collectionMarkerId →
          d.collectionMarker.center.z ≤ m.center.z) ∧
        (∀ (j : Nat) (m : Marker), j < i → d.markers[j]? = some m →
          m.id = demoProcessor.cfg.collectionMarkerId →
          d.collectionMarker.center.z < m.center.z) :=
  process_collectionMarker_closest demoEnv false 1050 1060 ⟨0⟩ 1000 demoFrame
    demoProcessor (by decide) (Or.inl rfl)
    (by simp [demoEnv, demoEnvWith, demoDetections])
    (by simp [demoEnv, demoEnvWith, demoDetections, demoProcessor,
      FieldImageProcessor.construct, updateConfig, demoConfig])


theorem process_poseCalls (env : Env) (gCalibrating : Bool) (t0 t1 : Timestamp)
    (monitor : PerformanceMonitor) (ts : Timestamp) (frame : Frame)
    (self : FieldImageProcessor) (hadm : ¬ (t0 - ts > 100))
    (hund : self.cfg.undistort = true)
    (hne : detect env gCalibrating (preprocess env ts frame self) ≠ []) :
    (process env gCalibrating t0 t1 monitor ts frame self).poseCalls.map
        (fun c => (c.cameraMatrix, c.distCoeffs)) =
      [([[((preprocess env ts frame self).data.width : ℚ), 0,
            (((preprocess env ts frame self).data.width / 2 : Nat) : ℚ)],
         [0, ((preprocess env ts frame self).data.width : ℚ),
            (((preprocess env ts frame self).data.height / 2 : Nat) : ℚ)],
         [0, 0, 1]], [[0, 0, 0, 0]])] := by
  have hlen : 0 < (detect env gCalibrating (preprocess env ts frame self)).length :=
    List.length_pos.mpr hne
  have hu := preprocess_undistorted env ts frame self
  rw [hund] at hu
  simp [process, PerformanceMonitor.shouldDrop, hadm, poseCall, hlen, hu,
    emptyCameraMatrix, zeroDistCoeffs]

theorem preprocess_width_demo :
    (preprocess demoEnv 1000 oddFrame demoProcessor).data.width = 641 ∧
    (preprocess demoEnv 1000 oddFrame demoProcessor).data.height = 481 := by
  simp [preprocess, sanitize_data, demoEnv, demoEnvWith, demoProcessor,
    FieldImageProcessor.construct, updateConfig, demoConfig, oddFrame]

theorem estimatePose_cameraMatrix (env : Env) (dets : List Detection)
    (self : FieldImageProcessor) :
    (estimatePose env dets self).cameraMatrix = self.cameraMatrix := by
  unfold estimatePose
  split <;> rfl

theorem process_self_cameraMatrix (env : Env) (gCalibrating : Bool) (t0 t1 : Timestamp)
    (monitor : PerformanceMonitor) (ts : Timestamp) (frame : Frame)
    (self : FieldImageProcessor) (hadm : ¬ (t0 - ts > 100)) :
    (process env gCalibrating t0 t1 monitor ts frame self).self.cameraMatrix =
      (preprocess env ts frame self).cameraMatrix := by
  simp [process, PerformanceMonitor.shouldDrop, hadm, estimatePose_cameraMatrix]

theorem preprocess_cameraMatrix_demo :
    (preprocess demoEnv 1000 oddFrame demoProcessor).cameraMatrix =
      [[641, 0, 641 / 2], [0, 641, 481 / 2], [0, 0, 1]] := by
  simp [preprocess, sanitizeCameraParameters, recomputeCameraParameters, demoEnv,
    demoEnvWith, demoProcessor, FieldImageProcessor.construct, updateConfig, demoConfig,
    oddFrame, Mat.empty, dummyCameraMatrix]
  norm_num

/-- C2: at a `641 x 481` frame, undistorted, with detections, the matrix that
`process` hands to the pose solver has the principal point `(320, 240)`, the
integer halves of width and height, while the pinhole matrix that
`sanitizeCameraParameters` builds for the same size in the same call has
`(641/2, 481/2)`: the two differ. -/
theorem process_pose_matrix_odd_frame :
    (process demoEnv false 1050 1060 ⟨0⟩ 1000 oddFrame demoProcessor).poseCalls.map
        (fun c => (c.cameraMatrix, c.distCoeffs)) =
      [([[641, 0, 320], [0, 641, 240], [0, 0, 1]], [[0, 0, 0, 0]])] ∧
    (process demoEnv false 1050 1060 ⟨0⟩ 1000 oddFrame demoProcessor).self.cameraMatrix =
      [[641, 0, 641 / 2], [0, 641, 481 / 2], [0, 0, 1]] ∧
    dummyCameraMatrix ⟨641, 481⟩ = [[641, 0, 641 / 2], [0, 641, 481 / 2], [0, 0, 1]] ∧
    (process demoEnv false 1050 1060 ⟨0⟩ 1000 oddFrame demoProcessor).poseCalls.map
        (fun c => c.cameraMatrix) ≠ [dummyCameraMatrix ⟨641, 481⟩] := by
  have hcalls := process_poseCalls demoEnv false 1050 1060 ⟨0⟩ 1000 oddFrame demoProcessor
    (by decide) rfl
    (by
      rw [detect_of_enabled _ _ _ (Or.inl (by rw [preprocess_cfg]; rfl))]
      simp [preprocess_cfg, demoProcessor, FieldImageProcessor.construct, updateConfig,
        demoConfig, demoEnv, demoEnvWith, demoDetections])
  rw [preprocess_width_demo.1, preprocess_width_demo.2] at hcalls
  have h1 : (process demoEnv false 1050 1060 ⟨0⟩ 1000 oddFrame demoProcessor).poseCalls.map
        (fun c => (c.cameraMatrix, c.distCoeffs)) =
      [([[641, 0, 320], [0, 641, 240], [0, 0, 1]], [[0, 0, 0, 0]])] := by
    rw [hcalls]; norm_num
  have h3 : dummyCameraMatrix ⟨641, 481⟩ =
      [[641, 0, 641 / 2], [0, 641, 481 / 2], [0, 0, 1]] := by
    norm_num [dummyCameraMatrix]
  have h4 : (process demoEnv false 1050 1060 ⟨0⟩ 1000 oddFrame demoProcessor).poseCalls.map
        (fun c => c.cameraMatrix) = [[[641, 0, 320], [0, 641, 240], [0, 0, 1]]] := by
    have h := congrArg (List.map Prod.fst) h1
    simpa [List.map_map, Function.comp_def] using h
  refine ⟨h1, ?_, h3, ?_⟩
  · rw [process_self_cameraMatrix _ _ _ _ _ _ _ _ (by decide), preprocess_cameraMatrix_demo]
  · rw [h4, h3]
    norm_num


/-- C3: the guard of `sanitizeCameraParameters`.  The call recomputes (reads
the calibration file, logs one line, rebuilds the maps) exactly when the
requested size differs from the cached `imageSize`, or `map1` or `map2` is
empty, or `forceSanitize` is set; otherwise the object is left as it is.
After a recomputation `forceSanitize` is clear. -/
theorem sanitizeCameraParameters_guard (env : Env) (size : Size)
    (self : FieldImageProcessor) :
    ((sanitizeCameraParameters env size self).log.length = self.log.length + 1 ↔
      (size ≠ self.imageSize ∨ self.map1.empty = true ∨ self.map2.empty = true ∨
        self.forceSanitize = true)) ∧
    ((size ≠ self.imageSize ∨ self.map1.empty = true ∨ self.map2.empty = true ∨
        self.forceSanitize = true) →
      sanitizeCameraParameters env size self =
          recomputeCameraParameters env size { self with forceSanitize := false } ∧
        (sanitizeCameraParameters env size self).forceSanitize = false) ∧
    (¬ (size ≠ self.imageSize ∨ self.map1.empty = true ∨ self.map2.empty = true ∨
        self.forceSanitize = true) →
      sanitizeCameraParameters env size self = self) := by
  refine ⟨⟨?_, ?_⟩, ?_, ?_⟩
  · intro hlen
    by_contra hns
    rw [sanitize_of_not_stale env size self hns] at hlen
    omega
  · intro hs
    rw [sanitize_of_stale env size self hs, recompute_log_length]
  · intro hs
    refine ⟨sanitize_of_stale env size self hs, ?_⟩
    rw [sanitize_of_stale env size self hs, recompute_forceSanitize]
  · exact sanitize_of_not_stale env size self

/-- An instance of the guard: right after construction the flag is set, so the
first call recomputes and clears it, and a repeated call changes nothing. -/
theorem sanitizeCameraParameters_guard_witness :
    (sanitizeCameraParameters demoEnv ⟨640, 480⟩ demoProcessor).forceSanitize = false ∧
    (sanitizeCameraParameters demoEnv ⟨640, 480⟩ demoProcessor).log.length =
      demoProcessor.log.length + 1 :=
  ⟨((sanitizeCameraParameters_guard demoEnv ⟨640, 480⟩ demoProcessor).2.1
      (Or.inr (Or.inr (Or.inr rfl)))).2,
   (sanitizeCameraParameters_guard demoEnv ⟨640, 480⟩ demoProcessor).1.mpr
      (Or.inr (Or.inr (Or.inr rfl)))⟩

/-- C4: idempotence of `sanitizeCameraParameters`.  If the map computation
yields non-empty maps, then after one call for a size `S` (of positive width
and height) the cached `imageSize` is `S` and `forceSanitize` is clear, and a
second call for `S` leaves the whole object, the log of recomputations
included, as the first call left it. -/
theorem sanitizeCameraParameters_idempotent (env : Env) (size : Size)
    (self : FieldImageProcessor)
    (_hpos : 0 < size.width ∧ 0 < size.height)
    (hmaps : ∀ (k d r p : Mat) (s : Size),
      (env.initUndistortRectifyMap k d r p s).1.empty = false ∧
      (env.initUndistortRectifyMap k d r p s).2.empty = false) :
    (sanitizeCameraParameters env size self).imageSize = size ∧
    (sanitizeCameraParameters env size self).forceSanitize = false ∧
    sanitizeCameraParameters env size (sanitizeCameraParameters env size self) =
      sanitizeCameraParameters env size self := by
  by_cases hs : size ≠ self.imageSize ∨ self.map1.empty = true ∨ self.map2.empty = true ∨
      self.forceSanitize = true
  · have h1 := sanitize_of_stale env size self hs
    have hsz : (sanitizeCameraParameters env size self).imageSize = size := by
      rw [h1, recompute_imageSize]
    have hf : (sanitizeCameraParameters env size self).forceSanitize = false := by
      rw [h1, recompute_forceSanitize]
    have hm1 : (sanitizeCameraParameters env size self).map1.empty = false := by
      rw [h1]; exact (recompute_maps env size _ hmaps).1
    have hm2 : (sanitizeCameraParameters env size self).map2.empty = false := by
      rw [h1]; exact (recompute_maps env size _ hmaps).2
    refine ⟨hsz, hf, ?_⟩
    apply sanitize_of_not_stale
    simp [hsz, hf, hm1, hm2]
  · have h1 := sanitize_of_not_stale env size self hs
    rw [h1]
    push_neg at hs
    obtain ⟨hsz, -, -, hf⟩ := hs
    exact ⟨hsz.symm, by simpa using hf, h1⟩

/-- An instance of the idempotence: the processor right after construction,
size `640 x 480`. -/
theorem sanitizeCameraParameters_idempotent_witness :
    (sanitizeCameraParameters demoEnv ⟨640, 480⟩ demoProcessor).imageSize = ⟨640, 480⟩ ∧
    (sanitizeCameraParameters demoEnv ⟨640, 480⟩ demoProcessor).forceSanitize = false ∧
    sanitizeCameraParameters demoEnv ⟨640, 480⟩
        (sanitizeCameraParameters demoEnv ⟨640, 480⟩ demoProcessor) =
      sanitizeCameraParameters demoEnv ⟨640, 480⟩ demoProcessor :=
  sanitizeCameraParameters_idempotent demoEnv ⟨640, 480⟩ demoProcessor
    ⟨by decide, by decide⟩
    (by intro k d r p s; simp [demoEnv, demoEnvWith, Mat.empty])


/-- C6: the rescaling of stored intrinsics.  When `sanitizeCameraParameters`
recomputes, the file holds a `3 x 3` camera matrix and distortion
coefficients for the size `W0 x H0`, and the requested size `W x H` has the
same aspect ratio (`W * H0 = W0 * H`, all positive), then the entries
`(0,0)` and `(0,2)` are scaled by `W / W0`, the entries `(1,1)` and `(1,2)`
by `H / H0`, the other entries are kept, and the cached size becomes
`W x H`. -/
theorem sanitizeCameraParameters_rescale (env : Env) (size : Size)
    (self : FieldImageProcessor)
    (a00 a01 a02 a10 a11 a12 a20 a21 a22 : ℚ) (W0 H0 : Int)
    (hstale : size ≠ self.imageSize ∨ self.map1.empty = true ∨ self.map2.empty = true ∨
      self.forceSanitize = true)
    (hcm : env.calibrationFile.cameraMatrix =
      [[a00, a01, a02], [a10, a11, a12], [a20, a21, a22]])
    (hdc : env.calibrationFile.distCoeffs.empty = false)
    (hsz : env.calibrationFile.imageSize = ⟨W0, H0⟩)
    (hW0 : 0 < W0) (hH0 : 0 < H0) (hW : 0 < size.width) (hH : 0 < size.height)
    (hasp : size.width * H0 = W0 * size.height) :
    (sanitizeCameraParameters env size self).cameraMatrix =
      [[a00 * (size.width : ℚ) / (W0 : ℚ), a01, a02 * (size.width : ℚ) / (W0 : ℚ)],
       [a10, a11 * (size.height : ℚ) / (H0 : ℚ), a12 * (size.height : ℚ) / (H0 : ℚ)],
       [a20, a21, a22]] ∧
    (sanitizeCameraParameters env size self).distCoeffs =
      env.calibrationFile.distCoeffs ∧
    (sanitizeCameraParameters env size self).imageSize = size := by
  rw [sanitize_of_stale env size self hstale]
  have hfeq : (floatDiv size.width size.height).feq (floatDiv W0 H0) = true :=
    (floatDiv_feq_pos size.width size.height W0 H0 hH hH0).mpr hasp
  have hcond : (!env.calibrationFile.cameraMatrix.empty &&
      !env.calibrationFile.distCoeffs.empty &&
      (floatDiv size.width size.height).feq
        (floatDiv env.calibrationFile.imageSize.width
          env.calibrationFile.imageSize.height)) = true := by
    have hdc' : env.calibrationFile.distCoeffs ≠ [] := by
      intro h
      rw [h] at hdc
      simp [Mat.empty] at hdc
    simp [hcm, hdc', hsz, hfeq, Mat.empty]
  have hWq : (size.width : ℚ) ≠ 0 := by exact_mod_cast hW.ne'
  have hHq : (size.height : ℚ) ≠ 0 := by exact_mod_cast hH.ne'
  have hW0q : (W0 : ℚ) ≠ 0 := by exact_mod_cast hW0.ne'
  have hH0q : (H0 : ℚ) ≠ 0 := by exact_mod_cast hH0.ne'
  have haspq : (size.width : ℚ) * (H0 : ℚ) = (W0 : ℚ) * (size.height : ℚ) := by
    exact_mod_cast hasp
  unfold recomputeCameraParameters
  simp only [hcond, if_true]
  refine ⟨?_, ?_, ?_⟩
  · simp only [hcm, hsz, Mat.setAt, Mat.at]
    simp
    have hratio : (size.width : ℚ) / (W0 : ℚ) = (size.height : ℚ) / (H0 : ℚ) := by
      rw [div_eq_div_iff hW0q hH0q, haspq]
      ring
    refine ⟨⟨?_, ?_⟩, ?_, ?_⟩
    · field_simp
    · field_simp
    · rw [mul_div_assoc, ← hratio]
      field_simp
    · field_simp
  · trivial
  · trivial

/-- An instance of the rescaling: intrinsics stored for `1280 x 720`
(`fx = fy = 1000`, `cx = 640`, `cy = 360`), requested size `640 x 360`. -/
theorem sanitizeCameraParameters_rescale_witness :
    (sanitizeCameraParameters demoEnvCalibrated ⟨640, 360⟩ demoProcessor).cameraMatrix =
      [[1000 * ((640 : Int) : ℚ) / ((1280 : Int) : ℚ), 0,
          640 * ((640 : Int) : ℚ) / ((1280 : Int) : ℚ)],
       [0, 1000 * ((360 : Int) : ℚ) / ((720 : Int) : ℚ),
          360 * ((360 : Int) : ℚ) / ((720 : Int) : ℚ)],
       [0, 0, 1]] ∧
    (sanitizeCameraParameters demoEnvCalibrated ⟨640, 360⟩ demoProcessor).distCoeffs =
      demoEnvCalibrated.calibrationFile.distCoeffs ∧
    (sanitizeCameraParameters demoEnvCalibrated ⟨640, 360⟩ demoProcessor).imageSize =
      ⟨640, 360⟩ :=
  sanitizeCameraParameters_rescale demoEnvCalibrated ⟨640, 360⟩ demoProcessor
    1000 0 640 0 1000 360 0 0 1 1280 720
    (Or.inr (Or.inr (Or.inr rfl))) rfl rfl rfl
    (by decide) (by decide) (by decide) (by decide) (by decide)


/-- C7: the corners are brought back to full resolution.  For an admitted
frame with detection enabled, whatever the detector returns for the
downscaled frame, the emitted markers carry the detector's ids in the
detector's order (so the two lists have the same length); for a downscaling
factor `k > 1` every corner is `k` times the detector's corner, for `k ≤ 1`
it is the detector's corner. -/
theorem process_corner_rescale (env : Env) (gCalibrating : Bool)
    (t0 t1 : Timestamp) (monitor : PerformanceMonitor) (ts : Timestamp) (frame : Frame)
    (self : FieldImageProcessor)
    (hadm : ¬ (t0 - ts > 100))
    (hdet : self.cfg.markerDetectionMethod = "aruco" ∨ gCalibrating = true) :
    ∃ d : FieldData,
      (process env gCalibrating t0 t1 monitor ts frame self).emitted = [d] ∧
      d.markers.map (fun m => m.id) =
        (env.detectMarkers (downscaledFrame env (preprocess env ts frame self))).map
          (fun x => x.1) ∧
      (1 < self.cfg.processingDownscalingFactor →
        d.markers.map (fun m => m.corners) =
          (env.detectMarkers (downscaledFrame env (preprocess env ts frame self))).map
            (fun x => x.2.map fun c =>
              (⟨self.cfg.processingDownscalingFactor * c.x,
                self.cfg.processingDownscalingFactor * c.y⟩ : Point2f))) ∧
      (self.cfg.processingDownscalingFactor ≤ 1 →
        d.markers.map (fun m => m.corners) =
          (env.detectMarkers (downscaledFrame env (preprocess env ts frame self))).map
            (fun x => x.2)) := by
  obtain ⟨d, hd, -, -, hmk, -⟩ :=
    process_admitted env gCalibrating t0 t1 monitor ts frame self hadm
  have hdet' : (preprocess env ts frame self).cfg.markerDetectionMethod = "aruco" ∨
      gCalibrating = true := by rw [preprocess_cfg]; exact hdet
  refine ⟨d, hd, ?_, ?_, ?_⟩
  · rw [hmk, builtMarkers_ids]
    exact detect_ids env gCalibrating _ hdet'
  · intro hk
    rw [hmk, builtMarkers_corners, detect_of_enabled env gCalibrating _ hdet',
      preprocess_cfg]
    simp [hk, List.map_map, Function.comp_def, Point2f.scale]
  · intro hk
    rw [hmk, builtMarkers_corners, detect_of_enabled env gCalibrating _ hdet',
      preprocess_cfg]
    simp [not_lt.mpr hk]

/-- An instance of the corner rescaling: `demoConfig` downscales by 2. -/
theorem process_corner_rescale_witness :
    ∃ d : FieldData,
      (process demoEnv false 1050 1060 ⟨0⟩ 1000 demoFrame demoProcessor).emitted = [d] ∧
      d.markers.map (fun m => m.id) = [7, 3, 7] ∧
      d.markers.map (fun m => m.corners) =
        [[⟨50, 20⟩, ⟨70, 20⟩, ⟨70, 40⟩, ⟨50, 40⟩],
         [⟨200, 80⟩, ⟨220, 80⟩, ⟨220, 100⟩, ⟨200, 100⟩],
         [⟨30, 120⟩, ⟨50, 120⟩, ⟨50, 140⟩, ⟨30, 140⟩]] := by
  obtain ⟨d, hd, hids, hk, -⟩ :=
    process_corner_rescale demoEnv false 1050 1060 ⟨0⟩ 1000 demoFrame demoProcessor
      (by decide) (Or.inl rfl)
  refine ⟨d, hd, ?_, ?_⟩
  · rw [hids]
    simp [demoEnv, demoEnvWith, demoDetections]
  · rw [hk (by norm_num [demoProcessor, FieldImageProcessor.construct, updateConfig,
      demoConfig])]
    simp [demoEnv, demoEnvWith, demoDetections, demoProcessor,
      FieldImageProcessor.construct, updateConfig, demoConfig]
    norm_num

/-- C8: the frame drop.  `process` compares the backlog `now - timestamp`
with the threshold 100: a frame whose backlog is greater is discarded, nothing
is emitted, the pose solver is not called and the object (output record,
calibration cache, `forceSanitize`) is left as it was; a frame whose backlog
is smaller is processed and exactly one record, carrying the timestamp of the
frame, is emitted. -/
theorem process_drop_boundary (env : Env) (gCalibrating : Bool)
    (t0 t1 : Timestamp) (monitor : PerformanceMonitor) (ts : Timestamp) (frame : Frame)
    (self : FieldImageProcessor) :
    (t0 - ts > 100 →
      (process env gCalibrating t0 t1 monitor ts frame self).emitted = [] ∧
      (process env gCalibrating t0 t1 monitor ts frame self).poseCalls = [] ∧
      (process env gCalibrating t0 t1 monitor ts frame self).self = self) ∧
    (t0 - ts < 100 →
      ∃ d : FieldData,
        (process env gCalibrating t0 t1 monitor ts frame self).emitted = [d] ∧
        d.timestamp = ts) := by
  constructor
  · intro h
    rw [process_dropped env gCalibrating t0 t1 monitor ts frame self h]
    exact ⟨rfl, rfl, rfl⟩
  · intro h
    obtain ⟨d, hd, -, hts, -, -⟩ :=
      process_admitted env gCalibrating t0 t1 monitor ts frame self (lt_asymm h)
    exact ⟨d, hd, hts⟩

/-- An instance of the frame drop: a frame stamped 150 ms before now is
dropped, a frame stamped 50 ms before now is emitted. -/
theorem process_drop_boundary_witness :
    ((process demoEnv false 1150 1160 ⟨0⟩ 1000 demoFrame demoProcessor).emitted = [] ∧
      (process demoEnv false 1150 1160 ⟨0⟩ 1000 demoFrame demoProcessor).poseCalls = [] ∧
      (process demoEnv false 1150 1160 ⟨0⟩ 1000 demoFrame demoProcessor).self =
        demoProcessor) ∧
    ∃ d : FieldData,
      (process demoEnv false 1050 1060 ⟨0⟩ 1000 demoFrame demoProcessor).emitted = [d] ∧
      d.timestamp = 1000 :=
  ⟨(process_drop_boundary demoEnv false 1150 1160 ⟨0⟩ 1000 demoFrame demoProcessor).1
      (by decide),
   (process_drop_boundary demoEnv false 1050 1060 ⟨0⟩ 1000 demoFrame demoProcessor).2
      (by decide)⟩

/-- C9: no match.  For an admitted frame, whatever the object held before, if
no detection carries the configured collection-marker id the emitted
`collectionMarker` is the default `Marker`, whose id is `-1`; if there is no
detection at all the emitted marker list is empty as well. -/
theorem process_no_match (env : Env) (gCalibrating : Bool)
    (t0 t1 : Timestamp) (monitor : PerformanceMonitor) (ts : Timestamp) (frame : Frame)
    (self : FieldImageProcessor)
    (hadm : ¬ (t0 - ts > 100))
    (hno : ∀ det ∈ detect env gCalibrating (preprocess env ts frame self),
      det.1 ≠ self.cfg.collectionMarkerId) :
    ∃ d : FieldData,
      (process env gCalibrating t0 t1 monitor ts frame self).emitted = [d] ∧
      d.collectionMarker = Marker.none ∧
      d.collectionMarker.id = -1 ∧
      (detect env gCalibrating (preprocess env ts frame self) = [] → d.markers = []) := by
  obtain ⟨d, hd, -, -, hmk, hcm⟩ :=
    process_admitted env gCalibrating t0 t1 monitor ts frame self hadm
  have hnom : ∀ m ∈ d.markers, m.id ≠ self.cfg.collectionMarkerId := by
    intro m hm
    have hmem : m.id ∈ d.markers.map (fun m => m.id) := List.mem_map.mpr ⟨m, hm, rfl⟩
    rw [hmk, builtMarkers_ids] at hmem
    obtain ⟨det, hdet, hdid⟩ := List.mem_map.mp hmem
    rw [← hdid]
    exact hno det hdet
  have hnone : d.collectionMarker = Marker.none := by
    rw [hcm, ← hmk]
    exact fuse_no_match self.cfg.collectionMarkerId d.markers Marker.none hnom
  refine ⟨d, hd, hnone, by rw [hnone]; rfl, ?_⟩
  intro hempty
  rw [hmk, hempty]
  rfl

/-- An instance of the no-match case: a frame without detections processed
after a frame that had three, so that the object still holds their markers. -/
theorem process_no_match_witness :
    ∃ d : FieldData,
      (process (demoEnvWith []) false 2050 2060 ⟨0⟩ 2000 demoFrame
        (process demoEnv false 1050 1060 ⟨0⟩ 1000 demoFrame demoProcessor).self).emitted
          = [d] ∧
      d.collectionMarker = Marker.none ∧
      d.collectionMarker.id = -1 ∧
      (detect (demoEnvWith []) false
        (preprocess (demoEnvWith []) 2000 demoFrame
          (process demoEnv false 1050 1060 ⟨0⟩ 1000 demoFrame demoProcessor).self) = [] →
        d.markers = []) :=
  process_no_match (demoEnvWith []) false 2050 2060 ⟨0⟩ 2000 demoFrame
    (process demoEnv false 1050 1060 ⟨0⟩ 1000 demoFrame demoProcessor).self
    (by decide)
    (by
      intro det hdet
      simp [detect, demoEnvWith] at hdet)

/-- C10: the ROI setter.  If either point is null (both coordinates zero) the
stored ROI becomes `(0,0)-(1,1)`; otherwise the stored start and end are the
given points, unclamped and in the given order.  Two null points give
`(0,0)-(1,1)`. -/
theorem newROI_spec (s e : QPointF) (self : FieldImageProcessor) :
    (((s.x = 0 ∧ s.y = 0) ∨ (e.x = 0 ∧ e.y = 0)) →
      (newROI s e self).sROI = ⟨0, 0⟩ ∧ (newROI s e self).eROI = ⟨1, 1⟩) ∧
    (¬ ((s.x = 0 ∧ s.y = 0) ∨ (e.x = 0 ∧ e.y = 0)) →
      (newROI s e self).sROI = s ∧ (newROI s e self).eROI = e) ∧
    ((newROI ⟨0, 0⟩ ⟨0, 0⟩ self).sROI = ⟨0, 0⟩ ∧
      (newROI ⟨0, 0⟩ ⟨0, 0⟩ self).eROI = ⟨1, 1⟩) := by
  refine ⟨?_, ?_, ?_⟩
  · intro h
    have : (s.isNull || e.isNull) = true := by
      simpa [QPointF.isNull] using h
    simp [newROI, this]
  · intro h
    have : (s.isNull || e.isNull) = false := by
      have h' : ¬ ((s.isNull || e.isNull) = true) := by
        simpa [QPointF.isNull] using h
      simpa using h'
    simp [newROI, this]
  · simp [newROI, QPointF.isNull]

/-- An instance of the ROI setter: a null end point resets the ROI, two
non-null points are stored as given, even when they are out of order and out
of the unit square. -/
theorem newROI_spec_witness :
    ((newROI ⟨1 / 4, 1 / 4⟩ ⟨0, 0⟩ demoProcessor).sROI = ⟨0, 0⟩ ∧
      (newROI ⟨1 / 4, 1 / 4⟩ ⟨0, 0⟩ demoProcessor).eROI = ⟨1, 1⟩) ∧
    ((newROI ⟨3, 2⟩ ⟨-1, 1 / 2⟩ demoProcessor).sROI = ⟨3, 2⟩ ∧
      (newROI ⟨3, 2⟩ ⟨-1, 1 / 2⟩ demoProcessor).eROI = ⟨-1, 1 / 2⟩) :=
  ⟨(newROI_spec ⟨1 / 4, 1 / 4⟩ ⟨0, 0⟩ demoProcessor).1 (Or.inr ⟨rfl, rfl⟩),
   (newROI_spec ⟨3, 2⟩ ⟨-1, 1 / 2⟩ demoProcessor).2.1 (by norm_num)⟩


theorem newROI_valid (s e : QPointF) (self : FieldImageProcessor)
    (h : (s.x = 0 ∧ s.y = 0) ∨ (e.x = 0 ∧ e.y = 0) ∨ validROI s e) :
    validROI (newROI s e self).sROI (newROI s e self).eROI := by
  unfold newROI
  split
  · simp [validROI]
  · rename_i hnull
    rcases h with h | h | h
    · exact absurd (by simp [QPointF.isNull, h]) hnull
    · exact absurd (by simp [QPointF.isNull, h]) hnull
    · exact h

theorem newROIs_valid (calls : List (QPointF × QPointF)) :
    ∀ self : FieldImageProcessor,
      validROI self.sROI self.eROI →
      (∀ c ∈ calls, (c.1.x = 0 ∧ c.1.y = 0) ∨ (c.2.x = 0 ∧ c.2.y = 0) ∨
        validROI c.1 c.2) →
      validROI (newROIs calls self).sROI (newROIs calls self).eROI := by
  induction calls with
  | nil => intro self h _; exact h
  | cons c rest ih =>
    intro self _ hc
    simp only [newROIs, List.foldl_cons]
    exact ih (newROI c.1 c.2 self)
      (newROI_valid c.1 c.2 self (hc c (List.mem_cons_self c rest)))
      (fun c' hc' => hc c' (List.mem_cons_of_mem c hc'))

/-- C11, as the code has it: starting from the constructor's state, after
every sequence of `newROI` calls each of which passes a null point or a valid
normalized rectangle, the stored ROI is a valid normalized rectangle. -/
theorem newROIs_valid_of_contract (loaded : FieldImageProcessorConfig)
    (calls : List (QPointF × QPointF))
    (hcalls : ∀ c ∈ calls, (c.1.x = 0 ∧ c.1.y = 0) ∨ (c.2.x = 0 ∧ c.2.y = 0) ∨
      validROI c.1 c.2) :
    validROI (newROIs calls (FieldImageProcessor.construct loaded)).sROI
      (newROIs calls (FieldImageProcessor.construct loaded)).eROI := by
  apply newROIs_valid calls _ _ hcalls
  simp [FieldImageProcessor.construct, updateConfig, validROI]

/-- An instance: a rectangle inside the frame, then a call with a null end
point. -/
theorem newROIs_valid_of_contract_witness :
    validROI
      (newROIs [(⟨1 / 4, 1 / 4⟩, ⟨3 / 4, 1 / 2⟩), (⟨1 / 2, 1 / 2⟩, ⟨0, 0⟩)]
        demoProcessor).sROI
      (newROIs [(⟨1 / 4, 1 / 4⟩, ⟨3 / 4, 1 / 2⟩), (⟨1 / 2, 1 / 2⟩, ⟨0, 0⟩)]
        demoProcessor).eROI :=
  newROIs_valid_of_contract demoConfig
    [(⟨1 / 4, 1 / 4⟩, ⟨3 / 4, 1 / 2⟩), (⟨1 / 2, 1 / 2⟩, ⟨0, 0⟩)]
    (by
      intro c hc
      simp only [List.mem_cons, List.mem_singleton, List.not_mem_nil, or_false] at hc
      rcases hc with rfl | rfl
      · right; right
        norm_num [validROI]
      · right; left
        exact ⟨rfl, rfl⟩)

/-- C11, as stated, fails: one `newROI` call on the freshly constructed object
with the end point up and left of the start point, both inside the frame,
leaves a stored ROI with `start.x > end.x`, which is not a valid normalized
rectangle. -/
theorem newROIs_reversed_not_valid :
    (newROIs [(⟨3 / 4, 3 / 4⟩, ⟨1 / 4, 1 / 4⟩)] demoProcessor).sROI = ⟨3 / 4, 3 / 4⟩ ∧
    (newROIs [(⟨3 / 4, 3 / 4⟩, ⟨1 / 4, 1 / 4⟩)] demoProcessor).eROI = ⟨1 / 4, 1 / 4⟩ ∧
    ¬ validROI (newROIs [(⟨3 / 4, 3 / 4⟩, ⟨1 / 4, 1 / 4⟩)] demoProcessor).sROI
      (newROIs [(⟨3 / 4, 3 / 4⟩, ⟨1 / 4, 1 / 4⟩)] demoProcessor).eROI := by
  have hs : (newROIs [(⟨3 / 4, 3 / 4⟩, ⟨1 / 4, 1 / 4⟩)] demoProcessor).sROI =
      ⟨3 / 4, 3 / 4⟩ := by
    simp [newROIs, newROI, QPointF.isNull]
  have he : (newROIs [(⟨3 / 4, 3 / 4⟩, ⟨1 / 4, 1 / 4⟩)] demoProcessor).eROI =
      ⟨1 / 4, 1 / 4⟩ := by
    simp [newROIs, newROI, QPointF.isNull]
  refine ⟨hs, he, ?_⟩
  rw [hs, he]
  norm_num [validROI]

/-- C12: for a camera with an unknown description, no current settings and
the supported settings RGB32 `640 x 480` at 30 and at 60 frames per second, in
this order, `getViewfinderSettings` returns the 30 fps setting, although the
60 fps setting has an accepted pixel format, a higher maximum frame rate and
the same pixel area. -/
theorem getViewfinderSettings_keeps_slower :
    getViewfinderSettings "USB Camera" QCameraViewfinderSettings.null [vga30, vga60] =
      vga30 ∧
    vga60 ∈ [vga30, vga60] ∧
    acceptedFormat vga60.pixelFormat = true ∧
    (getViewfinderSettings "USB Camera" QCameraViewfinderSettings.null
      [vga30, vga60]).maximumFrameRate < vga60.maximumFrameRate ∧
    pixelArea vga60 = pixelArea (getViewfinderSettings "USB Camera"
      QCameraViewfinderSettings.null [vga30, vga60]) := by
  have h : getViewfinderSettings "USB Camera" QCameraViewfinderSettings.null
      [vga30, vga60] = vga30 := by
    simp [getViewfinderSettings, recommendStep, acceptedFormat,
      QCameraViewfinderSettings.null, vga30, vga60, pixelArea]
  refine ⟨h, by simp, by simp [acceptedFormat, vga60], ?_, ?_⟩
  · rw [h]
    norm_num [vga30, vga60]
  · rw [h]
    simp [pixelArea, vga30, vga60]

end EyeRecToo
